import Mathlib

/-!
Verification development for the conversational insurance-intake engine
(`backend/conversation_engine.py`, `backend/services/nhtsa.py`,
`backend/services/openai_service.py`).

The Python source is shallowly embedded: strings are Lean `String`
(a wrapper around `List Char`), Python regex searches are specialised
matchers for the exact patterns appearing in the source, external HTTP
calls are parameterised by an outcome value, and the SQLAlchemy records
are plain Lean structures.  Evaluation is total and executable.
-/

/-! ## Python text primitives -/

/-- `needle.isPrefixOf`-style check on raw character lists. -/
def leadsList : List Char → List Char → Bool
  | [], _ => true
  | _ :: _, [] => false
  | a :: as, b :: bs => a == b && leadsList as bs

/-- Python substring containment `needle in haystack` on character lists. -/
def subList (needle : List Char) : List Char → Bool
  | [] => needle.isEmpty
  | c :: t => leadsList needle (c :: t) || subList needle t

/-- Python `needle in haystack` for strings. -/
def containsSub (needle haystack : String) : Bool :=
  subList needle.data haystack.data

/-- Python `str.lower()` (ASCII, which is all the source manipulates). -/
def pyLower (s : String) : String := ⟨s.data.map Char.toLower⟩

/-- Python `str.upper()` (ASCII). -/
def pyUpper (s : String) : String := ⟨s.data.map Char.toUpper⟩

/-- Python `str.strip()`: drop whitespace from both ends. -/
def pyStrip (s : String) : String :=
  ⟨((s.data.dropWhile Char.isWhitespace).reverse.dropWhile Char.isWhitespace).reverse⟩

/-- Python `str.replace(",", "")` as used on the mileage input. -/
def removeCommas (s : String) : String := ⟨s.data.filter (fun c => c != ',')⟩

/-- Helper for Python `str.title()`: the flag records whether the previous
character was alphabetic. -/
def pyTitleAux : Bool → List Char → List Char
  | _, [] => []
  | prevAlpha, c :: t =>
    (if c.isAlpha then (if prevAlpha then c.toLower else c.toUpper) else c)
      :: pyTitleAux c.isAlpha t

/-- Python `str.title()` (ASCII). -/
def pyTitle (s : String) : String := ⟨pyTitleAux false s.data⟩

/-- Numeric value of a list of decimal digits. -/
def digitsVal (l : List Char) : Nat :=
  l.foldl (fun n c => n * 10 + (c.toNat - '0'.toNat)) 0

/-- Tail of a Python integer-literal digit run: digits, with a single
underscore allowed only between two digits (no trailing or doubled
underscore). -/
def pyDigitsSepAux : List Char → Bool
  | [] => true
  | '_' :: d :: rest => d.isDigit && pyDigitsSepAux rest
  | ['_'] => false
  | d :: rest => d.isDigit && pyDigitsSepAux rest

/-- A Python integer-literal digit run (`1_234` is valid, `_1`, `1_`,
`1__2` are not). -/
def pyDigitsSep : List Char → Bool
  | [] => false
  | c :: rest => c.isDigit && pyDigitsSepAux rest

/-- Drop the underscore group separators before computing the value. -/
def stripUnderscores (l : List Char) : List Char := l.filter (fun c => c != '_')

/-- Python `int(s)`: surrounding whitespace stripped, then an optional sign
followed by a digit run with optional single underscores between digits.
`none` exactly when `int` raises `ValueError` (for the ASCII strings the
system handles). -/
def pyInt (s : String) : Option Int :=
  match (pyStrip s).data with
  | [] => none
  | '-' :: ds =>
    if pyDigitsSep ds then some (-(digitsVal (stripUnderscores ds) : Int)) else none
  | '+' :: ds =>
    if pyDigitsSep ds then some (digitsVal (stripUnderscores ds) : Int) else none
  | ds =>
    if pyDigitsSep ds then some (digitsVal (stripUnderscores ds) : Int) else none

/-! ## Regex machinery

Every regex in the engine is of one of the shapes
`\b(RUN)\b` (a delimited character run) or the email pattern
`[a-zA-Z0-9._%+-]+@[a-zA-Z0-9.-]+\.[a-zA-Z]{2,}`.  `re.search` semantics
(leftmost match, greedy with backtracking) are reproduced for exactly
these patterns. -/

/-- Python regex `\w` (ASCII range, which covers the engine's inputs). -/
def isWordChar (c : Char) : Bool := c.isAlphanum || c == '_'

/-- Left side of a `\b` before a word character: start of string or a
non-word predecessor. -/
def leftBoundaryOK : Option Char → Bool
  | none => true
  | some p => !isWordChar p

/-- Right side of a `\b` after a word character: end of string or a
non-word successor. -/
def rightBoundaryOK : List Char → Bool
  | [] => true
  | c :: _ => !isWordChar c

/-- Try to match `\b(c{n})\b` at the current position, where every matched
character satisfies `ok`. -/
def fixedRunTry (n : Nat) (ok : Char → Bool) (prev : Option Char) (l : List Char) :
    Option (List Char) :=
  let run := l.take n
  if run.length == n && run.all ok && leftBoundaryOK prev && rightBoundaryOK (l.drop n)
  then some run else none

/-- Try to match `\b(\d+)\b` at the current position (the greedy run must
extend to a non-word character, as in the source patterns). -/
def digitsRunTry (prev : Option Char) (l : List Char) : Option (List Char) :=
  let run := l.takeWhile Char.isDigit
  if !run.isEmpty && leftBoundaryOK prev && rightBoundaryOK (l.drop run.length)
  then some run else none

/-- Try to match `\b(19\d{2}|20\d{2})\b` at the current position. -/
def yearTry (prev : Option Char) (l : List Char) : Option (List Char) :=
  match l with
  | a :: b :: c :: d :: rest =>
    if ((a == '1' && b == '9') || (a == '2' && b == '0')) && c.isDigit && d.isDigit
        && leftBoundaryOK prev && rightBoundaryOK rest
    then some [a, b, c, d] else none
  | _ => none

/-- `re.search`: scan start positions left to right, remembering the
previous character for `\b` tests. -/
def reScan (tryAt : Option Char → List Char → Option (List Char)) :
    Option Char → List Char → Option (List Char)
  | _, [] => none
  | prev, c :: rest =>
    match tryAt prev (c :: rest) with
    | some r => some r
    | none => reScan tryAt (some c) rest

/-- `re.search(r'\b(\d{5})\b', s)`: first standalone 5-digit run. -/
def zip5Find (s : String) : Option String :=
  (reScan (fixedRunTry 5 Char.isDigit) none s.data).map (fun l => ⟨l⟩)

/-- VIN alphabet: alphanumeric excluding `I`, `O`, `Q`. -/
def isVinChar (c : Char) : Bool :=
  (('A' ≤ c && c ≤ 'Z') && !(c == 'I' || c == 'O' || c == 'Q')) || c.isDigit

/-- `re.search(r'\b([A-HJ-NPR-Z0-9]{17})\b', s)`: first standalone VIN. -/
def vinFind (s : String) : Option String :=
  (reScan (fixedRunTry 17 isVinChar) none s.data).map (fun l => ⟨l⟩)

/-- `re.search(r'\b(19\d{2}|20\d{2})\b', s)`. -/
def yearFind (s : String) : Option String :=
  (reScan yearTry none s.data).map (fun l => ⟨l⟩)

/-- `re.search(r'\b([1-7])\b', s)`. -/
def dayFind (s : String) : Option String :=
  (reScan (fixedRunTry 1 (fun c => '1' ≤ c && c ≤ '7')) none s.data).map (fun l => ⟨l⟩)

/-- `re.search(r'\b(\d+)\b', s)`. -/
def digitsFind (s : String) : Option String :=
  (reScan digitsRunTry none s.data).map (fun l => ⟨l⟩)

/-- Characters allowed in the email local part: `[a-zA-Z0-9._%+-]`. -/
def isLocalChar (c : Char) : Bool :=
  c.isAlphanum || c == '.' || c == '_' || c == '%' || c == '+' || c == '-'

/-- Characters allowed in the email domain: `[a-zA-Z0-9.-]`. -/
def isDomainChar (c : Char) : Bool := c.isAlphanum || c == '.' || c == '-'

/-- Backtracking for `[a-zA-Z0-9.-]+\.[a-zA-Z]{2,}` inside a maximal
domain-character run `dom`: try the split point `j` (position of the
literal dot) from largest to smallest, as the greedy engine does.
Returns the matched tail `dom.take j ++ '.' :: alphaRun`. -/
def emailDomTail (dom : List Char) : Nat → Option (List Char)
  | 0 => none
  | j + 1 =>
    let run := (dom.drop (j + 2)).takeWhile Char.isAlpha
    if dom.get? (j + 1) == some '.' && 2 ≤ run.length then
      some (dom.take (j + 1) ++ '.' :: run)
    else emailDomTail dom j

/-- Try the email pattern anchored at the current position. -/
def emailTry (_ : Option Char) (l : List Char) : Option (List Char) :=
  let loc := l.takeWhile isLocalChar
  if loc.isEmpty then none
  else
    match l.drop loc.length with
    | '@' :: rest =>
      let dom := rest.takeWhile isDomainChar
      match emailDomTail dom (dom.length - 1) with
      | some tail => some (loc ++ '@' :: tail)
      | none => none
    | _ => none

/-- `re.search` for the email pattern of the source. -/
def emailFind (s : String) : Option String :=
  (reScan emailTry none s.data).map (fun l => ⟨l⟩)

/-! ## Data model

Modelled from the spec: the record classes live in the repository's
`models.py`, which is not part of the provided sources; the fields and
the state enumeration below are exactly those the engine reads and
writes (spec sections 3 and 4.1). -/

/-- Modelled from the spec: the `ConversationState` enumeration of
`models.py`; the seventeen states of section 4.1. -/
inductive ConversationState where
  | zip_code | full_name | email | vehicle_choice | vehicle_vin | vehicle_year
  | vehicle_make | vehicle_body | vehicle_use | blind_spot_warning
  | commute_days | commute_miles | annual_mileage | add_another_vehicle
  | license_type | license_status | complete
  deriving DecidableEq

/-- Modelled from the spec: the `Vehicle` record of `models.py`, with the
fields the engine mutates (spec section 3). -/
structure Vehicle where
  vin : Option String := none
  year : Option Int := none
  make : Option String := none
  body_type : Option String := none
  vehicle_use : Option String := none
  blind_spot_warning : Option Bool := none
  days_per_week : Option Int := none
  one_way_miles : Option Int := none
  annual_mileage : Option Int := none
  deriving DecidableEq

/-- Modelled from the spec: the `Conversation` record of `models.py`
(applicant fields, current state, owned vehicle list; spec section 3).
The message log is not modelled: no claim concerns it. -/
structure Conversation where
  zip_code : Option String := none
  full_name : Option String := none
  email : Option String := none
  license_type : Option String := none
  license_status : Option String := none
  current_state : ConversationState := .zip_code
  vehicles : List Vehicle := []
  deriving DecidableEq

/-- Modelled from the spec: a fresh conversation starts at `zip_code`
with no data collected (spec section 4.1). -/
def initial_conversation : Conversation := {}

/-! ## `services/nhtsa.py` -/

/-- Outcome of one `httpx` GET: parsed JSON payload, `httpx.TimeoutException`,
or any other exception (including `raise_for_status`). -/
inductive HttpOutcome (α : Type) where
  | ok (payload : α)
  | timeout
  | failure (msg : String)

/-- One entry of `Results` in a `DecodeVinValues` response; absent keys are
`none` (Python `dict.get`). -/
structure DecodeRow where
  ErrorCode : Option String := none
  ErrorText : Option String := none
  Make : Option String := none
  Model : Option String := none
  ModelYear : Option String := none
  BodyClass : Option String := none
  deriving DecidableEq

/-- The dictionary returned by `NHTSAService.decode_vin`. -/
structure VinDecodeResult where
  valid : Bool
  make : Option String := none
  model : Option String := none
  year : Option String := none
  body_class : Option String := none
  error : Option String := none
  error_code : Option Int := none
  deriving DecidableEq

/-- One entry of `Results` in `GetMakesForVehicleType/car`. -/
structure CarMakeRow where
  MakeName : Option String := none
  deriving DecidableEq

/-- One entry of `Results` in `GetAllMakes`. -/
structure AllMakeRow where
  Make_Name : Option String := none
  deriving DecidableEq

/-- The dictionary returned by `NHTSAService.validate_year_make`. -/
structure YMResult where
  valid : Bool
  error : Option String := none
  warning : Option String := none
  deriving DecidableEq

/-- `int(str(error_code_raw).strip()) if error_code_raw else 0`, with the
surrounding `try`/`except` mapping parse failures to `0`. -/
def parseErrorCode (raw : Option String) : Int :=
  let r := raw.getD "0"
  if r = "" then 0 else (pyInt r).getD 0

/-- The makes `decode_vin` treats as suspicious manufacturer entries. -/
def suspicious_makes : List String :=
  ["SHERMAN + REILLY", "INCOMPLETE", "NOT APPLICABLE"]

/-- `NHTSAService.decode_vin`, with the HTTP round-trip abstracted into
`resp` (`Results` rows on success). -/
def decode_vin (_vin : String) (resp : HttpOutcome (List DecodeRow)) : VinDecodeResult :=
  match resp with
  | .timeout =>
    { valid := false
      error := some "Vehicle verification service timed out. Please try again." }
  | .failure e =>
    { valid := false, error := some ("Error verifying vehicle: " ++ e) }
  | .ok results =>
    match results with
    | [] =>
      { valid := false
        error := some "Could not decode VIN. Please verify it\x27s correct." }
    | result_data :: _ =>
      let error_code := parseErrorCode result_data.ErrorCode
      let model := result_data.Model
      let year := result_data.ModelYear
      let body_class := result_data.BodyClass
      if 7 ≤ error_code then
        { valid := false
          error := some ("Invalid VIN: " ++ (result_data.ErrorText.getD "Invalid VIN format")) }
      else
        match result_data.Make with
        | none =>
          { valid := false
            error := some "Could not decode VIN. Please verify it\x27s correct." }
        | some make =>
          if pyStrip make = "" then
            { valid := false
              error := some "Could not decode VIN. Please verify it\x27s correct." }
          else if (suspicious_makes.contains (pyUpper make) || containsSub "+" make)
              && (match year with | none => true | some y => pyStrip y = "") then
            { valid := false
              error := some "This VIN doesn\x27t appear to be for a standard consumer vehicle." }
          else
            { valid := true, make := some make, model := model, year := year
              body_class := body_class, error_code := some error_code }

/-- `NHTSAService.validate_year_make`, with the two HTTP calls abstracted
into `resp1` (`GetMakesForVehicleType/car`) and `resp2` (`GetAllMakes`).
The `year` argument is `Option Int` because the engine passes
`vehicle.year`, which may be `None`.  Note the body never consults it. -/
def validate_year_make (_year : Option Int) (make : String)
    (resp1 : HttpOutcome (List CarMakeRow)) (resp2 : HttpOutcome (List AllMakeRow)) :
    YMResult :=
  match resp1 with
  | .timeout => { valid := true, warning := some "Could not verify make, proceeding anyway." }
  | .failure _ => { valid := true, warning := some "Could not verify make, proceeding anyway." }
  | .ok results =>
    let makes := results.map (fun r => pyUpper (r.MakeName.getD ""))
    if makes.contains (pyUpper make) then { valid := true }
    else
      match resp2 with
      | .timeout => { valid := true, warning := some "Could not verify make, proceeding anyway." }
      | .failure _ => { valid := true, warning := some "Could not verify make, proceeding anyway." }
      | .ok results2 =>
        let all_makes := results2.map (fun r => pyUpper (r.Make_Name.getD ""))
        if all_makes.contains (pyUpper make) then { valid := true }
        else
          { valid := false
            error := some ("\x27" ++ make ++ "\x27 doesn\x27t appear to be a valid vehicle make. Please check the spelling.") }

/-- The NHTSA collaborator as the engine sees it: the awaited results of
`decode_vin` and `validate_year_make`. -/
structure Nhtsa where
  decode : String → VinDecodeResult
  yearMake : Option Int → String → YMResult

/-- The collaborator induced by fixed HTTP outcomes for the three
endpoints, via the two `NHTSAService` functions. -/
def serviceOf (dr : String → HttpOutcome (List DecodeRow))
    (m1 : HttpOutcome (List CarMakeRow)) (m2 : HttpOutcome (List AllMakeRow)) : Nhtsa :=
  { decode := fun vin => decode_vin vin (dr vin)
    yearMake := fun y m => validate_year_make y m m1 m2 }

/-! ## `services/openai_service.py` (frustration detector) -/

/-- The fixed keyword list of `OpenAIService.check_frustration`. -/
def frustration_keywords : List String :=
  ["frustrated", "angry", "annoyed", "speak to human", "talk to someone",
   "real person", "agent", "representative", "this is ridiculous",
   "hate this", "stupid", "useless", "waste of time", "give up",
   "help me", "not working", "doesn\x27t work", "broken"]

/-- `OpenAIService.check_frustration`: keyword membership over the
lowercased message. -/
def check_frustration (message : String) : Bool :=
  frustration_keywords.any (fun k => containsSub k (pyLower message))

/-! ## `conversation_engine.py` -/

/-- The decode-result dictionary after the engine inserts the matched VIN
(`result['vin'] = vin`); only the keys `_save_value` reads are kept,
plus `model` which travels along unread. -/
structure VinPayload where
  vin : String
  make : Option String := none
  model : Option String := none
  year : Option String := none
  body_class : Option String := none
  deriving DecidableEq

/-- Attach the matched VIN to a successful decode result. -/
def payloadOf (vin : String) (r : VinDecodeResult) : VinPayload :=
  { vin := vin, make := r.make, model := r.model, year := r.year
    body_class := r.body_class }

/-- The dynamically-typed extracted value a validator returns. -/
inductive XValue where
  | vstr (s : String)
  | vint (n : Int)
  | vbool (b : Bool)
  | vvin (p : VinPayload)
  | vchoice (p : VinPayload)
  deriving DecidableEq

/-- Python truthiness of an extracted value (`if value:`). -/
def pyTruthy : XValue → Bool
  | .vstr s => s != ""
  | .vint n => n != 0
  | .vbool b => b
  | .vvin _ => true
  | .vchoice _ => true

/-- The value stored by `int(x) if x else None` on the decode result's
year string, on the turns where it does not raise; the raising case
(truthy but unparseable `x`) is tracked by `pyIntOptRaises` below. -/
def pyIntOpt : Option String → Option Int
  | none => none
  | some s => if s = "" then none else pyInt s

/-- `int(x) if x else None` raises `ValueError` exactly when `x` is truthy
(non-`None`, non-empty) but not a valid integer literal — the case
`_save_value` does not guard against. -/
def pyIntOptRaises : Option String → Bool
  | none => false
  | some s => if s = "" then false else (pyInt s).isNone

/-- `ConversationEngine._get_current_vehicle`: the most recently appended
vehicle, if any. -/
def get_current_vehicle (c : Conversation) : Option Vehicle :=
  c.vehicles.getLast?

/-- `ConversationEngine._validate_and_extract`.  Returns
`(is_valid, extracted_value, error_message)`. -/
def validate_and_extract (svc : Nhtsa) (state : ConversationState)
    (raw_input : String) (c : Conversation) :
    Bool × Option XValue × Option String :=
  let user_input := pyStrip raw_input
  match state with
  | .zip_code =>
    match zip5Find user_input with
    | some z => (true, some (.vstr z), none)
    | none => (false, none, some "Please provide a valid 5-digit ZIP code.")
  | .full_name =>
    if 2 ≤ user_input.data.length then (true, some (.vstr user_input), none)
    else (false, none, some "Please provide your full name.")
  | .email =>
    match emailFind user_input with
    | some e => (true, some (.vstr (pyLower e)), none)
    | none => (false, none, some "Please provide a valid email address.")
  | .vehicle_choice =>
    let lower := pyLower user_input
    match vinFind (pyUpper user_input) with
    | some vin =>
      let result := svc.decode vin
      if result.valid then (true, some (.vchoice (payloadOf vin result)), none)
      else (false, none, some (result.error.getD "Invalid VIN."))
    | none =>
      if containsSub "vin" lower then (true, some (.vstr "vin"), none)
      else if ["year", "make", "manual", "type", "other"].any
          (fun w => containsSub w lower) then
        (true, some (.vstr "manual"), none)
      else (false, none, none)
  | .vehicle_vin =>
    match vinFind (pyUpper user_input) with
    | some vin =>
      let result := svc.decode vin
      if result.valid then (true, some (.vvin (payloadOf vin result)), none)
      else (false, none, some (result.error.getD "Invalid VIN."))
    | none => (false, none, some "Please provide a valid 17-character VIN.")
  | .vehicle_year =>
    match yearFind user_input with
    | some ys =>
      let year : Int := (digitsVal ys.data : Nat)
      if 1900 ≤ year ∧ year ≤ 2026 then (true, some (.vint year), none)
      else (false, none, some "Please provide a valid vehicle year (e.g., 2020).")
    | none => (false, none, some "Please provide a valid vehicle year (e.g., 2020).")
  | .vehicle_make =>
    if 2 ≤ user_input.data.length then
      let year : Option Int :=
        match get_current_vehicle c with
        | some vehicle => vehicle.year
        | none => some 2020
      let result := svc.yearMake year user_input
      if result.valid then (true, some (.vstr (pyTitle user_input)), none)
      else (false, none, some (result.error.getD "Invalid make."))
    else (false, none, some "Please provide the vehicle make.")
  | .vehicle_body =>
    let lower := pyLower user_input
    match ["sedan", "suv", "truck", "coupe", "hatchback", "van",
           "wagon", "convertible", "minivan", "pickup"].find?
        (fun body => containsSub body lower) with
    | some body => (true, some (.vstr (pyTitle body)), none)
    | none =>
      if 2 ≤ user_input.data.length then (true, some (.vstr (pyTitle user_input)), none)
      else (false, none, some "Please provide the body type (e.g., Sedan, SUV, Truck).")
  | .vehicle_use =>
    let lower := pyLower user_input
    if containsSub "commut" lower then (true, some (.vstr "commuting"), none)
    else if containsSub "commercial" lower then (true, some (.vstr "commercial"), none)
    else if containsSub "farm" lower then (true, some (.vstr "farming"), none)
    else if containsSub "business" lower then (true, some (.vstr "business"), none)
    else (false, none, some "Please specify: Commuting, Commercial, Farming, or Business.")
  | .blind_spot_warning =>
    let lower := pyLower user_input
    if ["yes", "yeah", "yep", "have", "equipped", "does"].any
        (fun w => containsSub w lower) then
      (true, some (.vbool true), none)
    else if ["no", "nope", "not", "don\x27t", "doesn\x27t"].any
        (fun w => containsSub w lower) then
      (true, some (.vbool false), none)
    else (false, none, some "Please answer Yes or No.")
  | .commute_days =>
    match dayFind user_input with
    | some d => (true, some (.vint (digitsVal d.data : Nat)), none)
    | none => (false, none, some "Please provide days per week (1-7).")
  | .commute_miles =>
    match digitsFind user_input with
    | some m =>
      let miles : Int := (digitsVal m.data : Nat)
      if 0 < miles then (true, some (.vint miles), none)
      else (false, none, some "Please provide the one-way distance in miles.")
    | none => (false, none, some "Please provide the one-way distance in miles.")
  | .annual_mileage =>
    match digitsFind (removeCommas user_input) with
    | some m =>
      let mileage : Int := (digitsVal m.data : Nat)
      if 0 < mileage then (true, some (.vint mileage), none)
      else (false, none, some "Please provide estimated annual mileage.")
    | none => (false, none, some "Please provide estimated annual mileage.")
  | .add_another_vehicle =>
    let lower := pyLower user_input
    if ["yes", "yeah", "yep", "another", "add", "more"].any
        (fun w => containsSub w lower) then
      (true, some (.vbool true), none)
    else if ["no", "nope", "done", "that\x27s all", "that\x27s it"].any
        (fun w => containsSub w lower) then
      (true, some (.vbool false), none)
    else (false, none, some "Would you like to add another vehicle? (Yes/No)")
  | .license_type =>
    let lower := pyLower user_input
    if containsSub "foreign" lower then (true, some (.vstr "foreign"), none)
    else if containsSub "personal" lower then (true, some (.vstr "personal"), none)
    else if containsSub "commercial" lower || containsSub "cdl" lower then
      (true, some (.vstr "commercial"), none)
    else (false, none, some "Please specify: Foreign, Personal, or Commercial.")
  | .license_status =>
    let lower := pyLower user_input
    if containsSub "valid" lower || containsSub "active" lower
        || containsSub "good" lower then
      (true, some (.vstr "valid"), none)
    else if containsSub "suspend" lower then (true, some (.vstr "suspended"), none)
    else (false, none, some "Please specify: Valid or Suspended.")
  | .complete => (true, some (.vstr user_input), none)

/-- `ConversationEngine._get_next_state`.  It receives the conversation
as already mutated by `_save_value` (Python mutates in place). -/
def get_next_state (current : ConversationState) (v : XValue) (c : Conversation) :
    ConversationState :=
  match current with
  | .zip_code => .full_name
  | .full_name => .email
  | .email => .vehicle_choice
  | .vehicle_choice =>
    match v with
    | .vchoice _ => .vehicle_use
    | .vstr s => if s = "vin" then .vehicle_vin else .vehicle_year
    | _ => .vehicle_year
  | .vehicle_vin => .vehicle_use
  | .vehicle_year => .vehicle_make
  | .vehicle_make => .vehicle_body
  | .vehicle_body => .vehicle_use
  | .vehicle_use => .blind_spot_warning
  | .blind_spot_warning =>
    match get_current_vehicle c with
    | some vehicle =>
      if vehicle.vehicle_use = some "commuting" then .commute_days
      else .annual_mileage
    | none => .annual_mileage
  | .commute_days => .commute_miles
  | .commute_miles => .add_another_vehicle
  | .annual_mileage => .add_another_vehicle
  | .add_another_vehicle =>
    if pyTruthy v then .vehicle_choice else .license_type
  | .license_type =>
    match v with
    | .vstr s => if s = "foreign" then .complete else .license_status
    | _ => .license_status
  | .license_status => .complete
  | .complete => .complete

/-- In-place mutation of the open (last) vehicle, the
`vehicle = self._get_current_vehicle(...); if vehicle: vehicle.f = value`
idiom: a no-op when the list is empty. -/
def updateLast (f : Vehicle → Vehicle) : List Vehicle → List Vehicle
  | [] => []
  | [u] => [f u]
  | u :: w :: rest => u :: updateLast f (w :: rest)

/-- Apply `updateLast` inside a conversation. -/
def updateCurrentVehicle (c : Conversation) (f : Vehicle → Vehicle) : Conversation :=
  { c with vehicles := updateLast f c.vehicles }

/-- `ConversationEngine._save_value`. -/
def save_value (state : ConversationState) (v : XValue) (c : Conversation) :
    Conversation :=
  match state, v with
  | .zip_code, .vstr s => { c with zip_code := some s }
  | .full_name, .vstr s => { c with full_name := some s }
  | .email, .vstr s => { c with email := some s }
  | .vehicle_choice, .vchoice p =>
    { c with vehicles := c.vehicles ++
        [{ vin := some p.vin, year := pyIntOpt p.year, make := p.make
           body_type := p.body_class }] }
  | .vehicle_choice, _ =>
    { c with vehicles := c.vehicles ++ [{}] }
  | .vehicle_vin, .vvin p =>
    updateCurrentVehicle c (fun vehicle =>
      { vehicle with vin := some p.vin, year := pyIntOpt p.year, make := p.make
                     body_type := p.body_class })
  | .vehicle_year, .vint n =>
    updateCurrentVehicle c (fun vehicle => { vehicle with year := some n })
  | .vehicle_make, .vstr s =>
    updateCurrentVehicle c (fun vehicle => { vehicle with make := some s })
  | .vehicle_body, .vstr s =>
    updateCurrentVehicle c (fun vehicle => { vehicle with body_type := some s })
  | .vehicle_use, .vstr s =>
    updateCurrentVehicle c (fun vehicle => { vehicle with vehicle_use := some s })
  | .blind_spot_warning, .vbool b =>
    updateCurrentVehicle c (fun vehicle => { vehicle with blind_spot_warning := some b })
  | .commute_days, .vint n =>
    updateCurrentVehicle c (fun vehicle => { vehicle with days_per_week := some n })
  | .commute_miles, .vint n =>
    updateCurrentVehicle c (fun vehicle => { vehicle with one_way_miles := some n })
  | .annual_mileage, .vint n =>
    updateCurrentVehicle c (fun vehicle => { vehicle with annual_mileage := some n })
  | .license_type, .vstr s => { c with license_type := some s }
  | .license_status, .vstr s => { c with license_status := some s }
  | _, _ => c

/-- The accepted-input path of `process_message`: save the value, then move
to the next state computed from the mutated conversation. -/
def applyAccept (st : ConversationState) (v : XValue) (c : Conversation) :
    Conversation :=
  let c2 := save_value st v c
  { c2 with current_state := get_next_state st v c2 }

/-- `ConversationEngine.process_message`, restricted to the record and
state (message persistence and reply generation leave both untouched).
Returns the conversation after the turn and the optional
`additional_context` guidance handed to the reply generator. -/
def process_message (svc : Nhtsa) (c : Conversation) (user_message : String) :
    Conversation × Option String :=
  if check_frustration user_message then (c, none)
  else
    match validate_and_extract svc c.current_state user_message c with
    | (true, some value, _) => (applyAccept c.current_state value c, none)
    | (_, _, error_msg) =>
      (c, match error_msg with
          | some e =>
            if e = "" then none
            else some ("The user\x27s input was invalid. Error: " ++ e)
          | none => none)

/-- Does `_save_value` raise?  Its only failure points are the two
unguarded `int(...)` calls: the vehicle-choice decode path (line 304,
reached unconditionally for the freshly created vehicle) and the
vehicle-vin path (line 313, reached only when an open vehicle exists). -/
def save_value_raises (state : ConversationState) (v : XValue)
    (c : Conversation) : Bool :=
  match state, v with
  | .vehicle_choice, .vchoice p => pyIntOptRaises p.year
  | .vehicle_vin, .vvin p => !c.vehicles.isEmpty && pyIntOptRaises p.year
  | _, _ => false

/-- Does the whole turn raise?  Only an accepted value can reach
`_save_value`. -/
def turn_raises (svc : Nhtsa) (c : Conversation) (msg : String) : Bool :=
  !check_frustration msg &&
    (match validate_and_extract svc c.current_state msg c with
     | (true, some v, _) => save_value_raises c.current_state v c
     | _ => false)

/-- `process_message` with the unhandled `ValueError` of `_save_value`
made explicit: `none` means the exception escapes the engine, so the
state update and context refresh never run and no transition occurs.
(Python does commit the freshly inserted empty vehicle row at line 298
before raising; that partial persistence effect is outside the record
view returned here, which is only defined for completed turns.)  The
total `process_message` above describes exactly the non-raising turns. -/
def process_message_exc (svc : Nhtsa) (c : Conversation) (user_message : String) :
    Option (Conversation × Option String) :=
  if turn_raises svc c user_message then none
  else some (process_message svc c user_message)

/-- The conversations the engine can actually produce: the fresh record,
closed under turns with arbitrary inputs and collaborator behaviour. -/
inductive Reachable : Conversation → Prop where
  | init : Reachable initial_conversation
  | step (svc : Nhtsa) (msg : String) {c : Conversation} :
      Reachable c → Reachable (process_message svc c msg).1

/-! ## The mileage-exclusivity invariant (claim C2) -/

/-- Per-vehicle shape: the commuting fields imply commuting use, the
annual-mileage field implies non-commuting use. -/
def vehicleOK (u : Vehicle) : Prop :=
  (u.days_per_week ≠ none → u.vehicle_use = some "commuting") ∧
  (u.one_way_miles ≠ none → u.vehicle_use = some "commuting") ∧
  (u.annual_mileage ≠ none → u.vehicle_use ≠ some "commuting")

/-- Inductive invariant: every vehicle satisfies `vehicleOK`, and the
current state constrains the open vehicle (commute states imply a
commuting open vehicle, `annual_mileage` a non-commuting one, and the
pre-use capture states an open vehicle with no mileage fields yet). -/
def EngineInv (c : Conversation) : Prop :=
  (∀ u ∈ c.vehicles, vehicleOK u) ∧
  ((c.current_state = .commute_days ∨ c.current_state = .commute_miles) →
    ∀ u, c.vehicles.getLast? = some u → u.vehicle_use = some "commuting") ∧
  (c.current_state = .annual_mileage →
    ∀ u, c.vehicles.getLast? = some u → u.vehicle_use ≠ some "commuting") ∧
  ((c.current_state = .vehicle_vin ∨ c.current_state = .vehicle_year ∨
    c.current_state = .vehicle_make ∨ c.current_state = .vehicle_body ∨
    c.current_state = .vehicle_use) →
    ∀ u, c.vehicles.getLast? = some u →
      u.days_per_week = none ∧ u.one_way_miles = none ∧ u.annual_mileage = none)

/-- The blind-spot check with the two keyword sets tested in the opposite
order; written from the claim text (negative set first) to compare against
the source order, everything else identical. -/
def blind_spot_negative_first (raw_input : String) :
    Bool × Option XValue × Option String :=
  let user_input := pyStrip raw_input
  let lower := pyLower user_input
  if ["no", "nope", "not", "don\x27t", "doesn\x27t"].any
      (fun w => containsSub w lower) then
    (true, some (.vbool false), none)
  else if ["yes", "yeah", "yep", "have", "equipped", "does"].any
      (fun w => containsSub w lower) then
    (true, some (.vbool true), none)
  else (false, none, some "Please answer Yes or No.")

/-! ## Fixtures for concrete runs -/

/-- A lookup collaborator whose VIN decoding is down and whose make check
always passes. -/
def svcW : Nhtsa where
  decode := fun _ => { valid := false, error := some "service unavailable" }
  yearMake := fun _ _ => { valid := true }

/-- A lookup collaborator whose VIN decoding succeeds with fixed data. -/
def svcOKW : Nhtsa where
  decode := fun _ =>
    { valid := true, make := some "HONDA", model := some "Accord",
      year := some "2003", body_class := some "Sedan", error_code := some 0 }
  yearMake := fun _ _ => { valid := true }

/-- A conversation sitting at `add_another_vehicle` with one vehicle. -/
def convA : Conversation :=
  { zip_code := some "90210", full_name := some "Jo", email := some "a@b.co",
    current_state := .add_another_vehicle, vehicles := [{}] }

/-- `convA` moved to `vehicle_choice`. -/
def convB : Conversation := { convA with current_state := .vehicle_choice }

/-- A fresh conversation already at `vehicle_choice`. -/
def convVC : Conversation := { current_state := .vehicle_choice }

/-- A conversation in the terminal state. -/
def convC : Conversation := { current_state := .complete }

/-- An eleven-turn concrete run that fully specifies one commuting
vehicle. -/
def convW : Conversation :=
  (["90210", "John Smith", "a@b.com", "manual", "2020", "Toyota", "sedan",
    "commuting", "yes", "5", "10"].foldl
    (fun c m => (process_message svcW c m).1) initial_conversation)

/-- A successful decode row whose `ModelYear` is the non-numeric string
"N/A" — `decode_vin` accepts it (error code 0, non-empty make) and passes
the year string through unchanged. -/
def rowBadYear : DecodeRow :=
  { ErrorCode := some "0", Make := some "HONDA", Model := some "Accord",
    ModelYear := some "N/A", BodyClass := some "Sedan" }

/-- The collaborator induced by `rowBadYear` through the real
`decode_vin`. -/
def svcBadYear : Nhtsa :=
  serviceOf (fun _ => .ok [rowBadYear]) (.ok []) (.ok [])

/-- The vehicle `convW` ends up with. -/
def vehW : Vehicle :=
  { year := some 2020, make := some "Toyota", body_type := some "Sedan",
    vehicle_use := some "commuting", blind_spot_warning := some true,
    days_per_week := some 5, one_way_miles := some 10 }

/-! ## Helper lemmas -/

theorem mem_of_getLast?_eq {vs : List Vehicle} {u : Vehicle}
    (h : vs.getLast? = some u) : u ∈ vs := by
  obtain ⟨hne, heq⟩ := List.mem_getLast?_eq_getLast (Option.mem_def.mpr h)
  rw [heq]
  exact List.getLast_mem hne

theorem getLast?_updateLast (f : Vehicle → Vehicle) :
    ∀ vs : List Vehicle, (updateLast f vs).getLast? = vs.getLast?.map f := by
  intro vs
  induction vs with
  | nil => rfl
  | cons a t ih =>
    cases t with
    | nil => rfl
    | cons b t2 =>
      rw [updateLast, List.getLast?_cons_cons, ← ih]
      cases t2 with
      | nil => rfl
      | cons x xs =>
        rw [show updateLast f (b :: x :: xs) = b :: updateLast f (x :: xs) from rfl,
          List.getLast?_cons_cons]

theorem mem_updateLast (f : Vehicle → Vehicle) :
    ∀ (vs : List Vehicle) (w : Vehicle), w ∈ updateLast f vs →
      w ∈ vs ∨ ∃ u, vs.getLast? = some u ∧ w = f u := by
  intro vs
  induction vs with
  | nil => intro w h; rw [updateLast] at h; cases h
  | cons a t ih =>
    cases t with
    | nil =>
      intro w h
      rw [updateLast] at h
      rcases List.mem_singleton.mp h with h1
      exact Or.inr ⟨a, rfl, h1⟩
    | cons b t2 =>
      intro w h
      rw [updateLast] at h
      rcases List.mem_cons.mp h with h1 | h2
      · exact Or.inl (List.mem_cons.mpr (Or.inl h1))
      · rcases ih w h2 with hmem | ⟨u, hu, hw⟩
        · exact Or.inl (List.mem_cons_of_mem a hmem)
        · exact Or.inr ⟨u, by rw [List.getLast?_cons_cons]; exact hu, hw⟩

theorem save_value_current_state (st : ConversationState) (v : XValue)
    (c : Conversation) : (save_value st v c).current_state = c.current_state := by
  cases st <;> cases v <;> rfl

theorem vehicles_updateCurrentVehicle (c : Conversation) (f : Vehicle → Vehicle) :
    (updateCurrentVehicle c f).vehicles = updateLast f c.vehicles := rfl

theorem ite_ne_of_ne {α : Type} {cond : Prop} [Decidable cond] {A B X : α}
    (hA : A ≠ X) (hB : B ≠ X) : ite cond A B ≠ X := by
  by_cases h : cond
  · rw [if_pos h]; exact hA
  · rw [if_neg h]; exact hB

/-- Assemble `EngineInv` when the target state carries no per-state constraint. -/
theorem EngineInv_of_no_aux (c' : Conversation)
    (h1 : ∀ u ∈ c'.vehicles, vehicleOK u)
    (hcd : c'.current_state ≠ .commute_days) (hcm : c'.current_state ≠ .commute_miles)
    (ham : c'.current_state ≠ .annual_mileage) (hvv : c'.current_state ≠ .vehicle_vin)
    (hvy : c'.current_state ≠ .vehicle_year) (hvm : c'.current_state ≠ .vehicle_make)
    (hvb : c'.current_state ≠ .vehicle_body) (hvu : c'.current_state ≠ .vehicle_use) :
    EngineInv c' := by
  refine ⟨h1, fun hx => ?_, fun hx => absurd hx ham, fun hx => ?_⟩
  · rcases hx with h | h
    · exact absurd h hcd
    · exact absurd h hcm
  · rcases hx with h | h | h | h | h
    · exact absurd h hvv
    · exact absurd h hvy
    · exact absurd h hvm
    · exact absurd h hvb
    · exact absurd h hvu

theorem inv_step_zip (v : XValue) (c : Conversation) (h : EngineInv c) :
    EngineInv (applyAccept .zip_code v c) := by
  obtain ⟨h1, -, -, -⟩ := h
  cases v <;>
    exact EngineInv_of_no_aux _ h1 (fun hx => nomatch hx) (fun hx => nomatch hx) (fun hx => nomatch hx) (fun hx => nomatch hx)
      (fun hx => nomatch hx) (fun hx => nomatch hx) (fun hx => nomatch hx) (fun hx => nomatch hx)

theorem inv_step_full_name (v : XValue) (c : Conversation) (h : EngineInv c) :
    EngineInv (applyAccept .full_name v c) := by
  obtain ⟨h1, -, -, -⟩ := h
  cases v <;>
    exact EngineInv_of_no_aux _ h1 (fun hx => nomatch hx) (fun hx => nomatch hx) (fun hx => nomatch hx) (fun hx => nomatch hx)
      (fun hx => nomatch hx) (fun hx => nomatch hx) (fun hx => nomatch hx) (fun hx => nomatch hx)

theorem inv_step_email (v : XValue) (c : Conversation) (h : EngineInv c) :
    EngineInv (applyAccept .email v c) := by
  obtain ⟨h1, -, -, -⟩ := h
  cases v <;>
    exact EngineInv_of_no_aux _ h1 (fun hx => nomatch hx) (fun hx => nomatch hx) (fun hx => nomatch hx) (fun hx => nomatch hx)
      (fun hx => nomatch hx) (fun hx => nomatch hx) (fun hx => nomatch hx) (fun hx => nomatch hx)

theorem inv_step_add_another (v : XValue) (c : Conversation) (h : EngineInv c) :
    EngineInv (applyAccept .add_another_vehicle v c) := by
  obtain ⟨h1, -, -, -⟩ := h
  cases v <;>
    (refine EngineInv_of_no_aux _ h1 ?_ ?_ ?_ ?_ ?_ ?_ ?_ ?_ <;>
      (simp only [applyAccept, get_next_state]
       exact ite_ne_of_ne (by decide) (by decide)))

theorem inv_step_license_type (v : XValue) (c : Conversation) (h : EngineInv c) :
    EngineInv (applyAccept .license_type v c) := by
  obtain ⟨h1, -, -, -⟩ := h
  cases v with
  | vstr s =>
    refine EngineInv_of_no_aux _ h1 ?_ ?_ ?_ ?_ ?_ ?_ ?_ ?_ <;>
      (simp only [applyAccept, get_next_state]
       exact ite_ne_of_ne (by decide) (by decide))
  | vint n =>
    exact EngineInv_of_no_aux _ h1 (fun hx => nomatch hx) (fun hx => nomatch hx)
      (fun hx => nomatch hx) (fun hx => nomatch hx) (fun hx => nomatch hx)
      (fun hx => nomatch hx) (fun hx => nomatch hx) (fun hx => nomatch hx)
  | vbool b =>
    exact EngineInv_of_no_aux _ h1 (fun hx => nomatch hx) (fun hx => nomatch hx)
      (fun hx => nomatch hx) (fun hx => nomatch hx) (fun hx => nomatch hx)
      (fun hx => nomatch hx) (fun hx => nomatch hx) (fun hx => nomatch hx)
  | vvin p =>
    exact EngineInv_of_no_aux _ h1 (fun hx => nomatch hx) (fun hx => nomatch hx)
      (fun hx => nomatch hx) (fun hx => nomatch hx) (fun hx => nomatch hx)
      (fun hx => nomatch hx) (fun hx => nomatch hx) (fun hx => nomatch hx)
  | vchoice p =>
    exact EngineInv_of_no_aux _ h1 (fun hx => nomatch hx) (fun hx => nomatch hx)
      (fun hx => nomatch hx) (fun hx => nomatch hx) (fun hx => nomatch hx)
      (fun hx => nomatch hx) (fun hx => nomatch hx) (fun hx => nomatch hx)

theorem inv_step_license_status (v : XValue) (c : Conversation) (h : EngineInv c) :
    EngineInv (applyAccept .license_status v c) := by
  obtain ⟨h1, -, -, -⟩ := h
  cases v <;>
    exact EngineInv_of_no_aux _ h1 (fun hx => nomatch hx) (fun hx => nomatch hx) (fun hx => nomatch hx) (fun hx => nomatch hx)
      (fun hx => nomatch hx) (fun hx => nomatch hx) (fun hx => nomatch hx) (fun hx => nomatch hx)

theorem inv_step_complete (v : XValue) (c : Conversation) (h : EngineInv c) :
    EngineInv (applyAccept .complete v c) := by
  obtain ⟨h1, -, -, -⟩ := h
  cases v <;>
    exact EngineInv_of_no_aux _ h1 (fun hx => nomatch hx) (fun hx => nomatch hx) (fun hx => nomatch hx) (fun hx => nomatch hx)
      (fun hx => nomatch hx) (fun hx => nomatch hx) (fun hx => nomatch hx) (fun hx => nomatch hx)

theorem inv_step_choice (v : XValue) (c : Conversation) (h : EngineInv c) :
    EngineInv (applyAccept .vehicle_choice v c) := by
  obtain ⟨h1, -, -, -⟩ := h
  cases v <;>
    (refine ⟨?_, ?_, ?_, ?_⟩
     · intro u hu
       rcases List.mem_append.mp hu with hm | hm
       · exact h1 u hm
       · rw [List.mem_singleton.mp hm]
         exact ⟨fun hx => (hx rfl).elim, fun hx => (hx rfl).elim, fun hx => (hx rfl).elim⟩
     · intro hx
       rcases hx with hx | hx <;>
         first
         | cases hx
         | exact absurd hx (ite_ne_of_ne (by decide) (by decide))
     · intro hx
       first
       | cases hx
       | exact absurd hx (ite_ne_of_ne (by decide) (by decide))
     · intro _ u hu
       have hu2 := (List.getLast?_concat c.vehicles).symm.trans hu
       injection hu2 with hu2
       subst hu2
       exact ⟨rfl, rfl, rfl⟩)

/-- Assemble `EngineInv` when the target state is one of the pre-use
capture states. -/
theorem EngineInv_preuse (c' : Conversation)
    (h1 : ∀ u ∈ c'.vehicles, vehicleOK u)
    (hcs : c'.current_state = .vehicle_vin ∨ c'.current_state = .vehicle_year ∨
      c'.current_state = .vehicle_make ∨ c'.current_state = .vehicle_body ∨
      c'.current_state = .vehicle_use)
    (h4 : ∀ u, c'.vehicles.getLast? = some u →
      u.days_per_week = none ∧ u.one_way_miles = none ∧ u.annual_mileage = none) :
    EngineInv c' := by
  refine ⟨h1, ?_, ?_, fun _ => h4⟩
  · intro hx
    rcases hcs with h | h | h | h | h <;> rcases hx with hx | hx <;>
      (rw [h] at hx; cases hx)
  · intro hx
    rcases hcs with h | h | h | h | h <;> (rw [h] at hx; cases hx)

/-- Assemble `EngineInv` when the target state is a commute state. -/
theorem EngineInv_commute (c' : Conversation)
    (h1 : ∀ u ∈ c'.vehicles, vehicleOK u)
    (hcs : c'.current_state = .commute_days ∨ c'.current_state = .commute_miles)
    (h2 : ∀ u, c'.vehicles.getLast? = some u → u.vehicle_use = some "commuting") :
    EngineInv c' := by
  refine ⟨h1, fun _ => h2, ?_, ?_⟩
  · intro hx
    rcases hcs with h | h <;> (rw [h] at hx; cases hx)
  · intro hx
    rcases hcs with h | h <;> rcases hx with hx | hx | hx | hx | hx <;>
      (rw [h] at hx; cases hx)

/-- Assemble `EngineInv` when the target state is `annual_mileage`. -/
theorem EngineInv_annual (c' : Conversation)
    (h1 : ∀ u ∈ c'.vehicles, vehicleOK u)
    (hcs : c'.current_state = .annual_mileage)
    (h3 : ∀ u, c'.vehicles.getLast? = some u → u.vehicle_use ≠ some "commuting") :
    EngineInv c' := by
  refine ⟨h1, ?_, fun _ => h3, ?_⟩
  · intro hx
    rcases hx with hx | hx <;> (rw [hcs] at hx; cases hx)
  · intro hx
    rcases hx with hx | hx | hx | hx | hx <;> (rw [hcs] at hx; cases hx)

theorem inv_step_vin (v : XValue) (c : Conversation) (h : EngineInv c)
    (hst : c.current_state = .vehicle_vin) :
    EngineInv (applyAccept .vehicle_vin v c) := by
  obtain ⟨h1, -, -, h4⟩ := h
  have hfree := h4 (Or.inl hst)
  cases v with
  | vvin p =>
    refine EngineInv_preuse _ ?_ (Or.inr (Or.inr (Or.inr (Or.inr rfl)))) ?_
    · intro u hu
      rcases mem_updateLast _ _ u hu with hm | ⟨u0, hu0, rfl⟩
      · exact h1 u hm
      · exact h1 u0 (mem_of_getLast?_eq hu0)
    · intro u hu
      have hu2 := (getLast?_updateLast _ c.vehicles).symm.trans hu
      rcases Option.map_eq_some'.mp hu2 with ⟨u0, hu0, rfl⟩
      exact hfree u0 hu0
  | vstr s =>
    exact EngineInv_preuse _ h1 (Or.inr (Or.inr (Or.inr (Or.inr rfl)))) hfree
  | vint n =>
    exact EngineInv_preuse _ h1 (Or.inr (Or.inr (Or.inr (Or.inr rfl)))) hfree
  | vbool b =>
    exact EngineInv_preuse _ h1 (Or.inr (Or.inr (Or.inr (Or.inr rfl)))) hfree
  | vchoice p =>
    exact EngineInv_preuse _ h1 (Or.inr (Or.inr (Or.inr (Or.inr rfl)))) hfree

theorem inv_step_year (v : XValue) (c : Conversation) (h : EngineInv c)
    (hst : c.current_state = .vehicle_year) :
    EngineInv (applyAccept .vehicle_year v c) := by
  obtain ⟨h1, -, -, h4⟩ := h
  have hfree := h4 (Or.inr (Or.inl hst))
  cases v with
  | vint n =>
    refine EngineInv_preuse _ ?_ (Or.inr (Or.inr (Or.inl rfl))) ?_
    · intro u hu
      rcases mem_updateLast _ _ u hu with hm | ⟨u0, hu0, rfl⟩
      · exact h1 u hm
      · exact h1 u0 (mem_of_getLast?_eq hu0)
    · intro u hu
      have hu2 := (getLast?_updateLast _ c.vehicles).symm.trans hu
      rcases Option.map_eq_some'.mp hu2 with ⟨u0, hu0, rfl⟩
      exact hfree u0 hu0
  | vstr s =>
    exact EngineInv_preuse _ h1 (Or.inr (Or.inr (Or.inl rfl))) hfree
  | vbool b =>
    exact EngineInv_preuse _ h1 (Or.inr (Or.inr (Or.inl rfl))) hfree
  | vvin p =>
    exact EngineInv_preuse _ h1 (Or.inr (Or.inr (Or.inl rfl))) hfree
  | vchoice p =>
    exact EngineInv_preuse _ h1 (Or.inr (Or.inr (Or.inl rfl))) hfree

theorem inv_step_make (v : XValue) (c : Conversation) (h : EngineInv c)
    (hst : c.current_state = .vehicle_make) :
    EngineInv (applyAccept .vehicle_make v c) := by
  obtain ⟨h1, -, -, h4⟩ := h
  have hfree := h4 (Or.inr (Or.inr (Or.inl hst)))
  cases v with
  | vstr s =>
    refine EngineInv_preuse _ ?_ (Or.inr (Or.inr (Or.inr (Or.inl rfl)))) ?_
    · intro u hu
      rcases mem_updateLast _ _ u hu with hm | ⟨u0, hu0, rfl⟩
      · exact h1 u hm
      · exact h1 u0 (mem_of_getLast?_eq hu0)
    · intro u hu
      have hu2 := (getLast?_updateLast _ c.vehicles).symm.trans hu
      rcases Option.map_eq_some'.mp hu2 with ⟨u0, hu0, rfl⟩
      exact hfree u0 hu0
  | vint n =>
    exact EngineInv_preuse _ h1 (Or.inr (Or.inr (Or.inr (Or.inl rfl)))) hfree
  | vbool b =>
    exact EngineInv_preuse _ h1 (Or.inr (Or.inr (Or.inr (Or.inl rfl)))) hfree
  | vvin p =>
    exact EngineInv_preuse _ h1 (Or.inr (Or.inr (Or.inr (Or.inl rfl)))) hfree
  | vchoice p =>
    exact EngineInv_preuse _ h1 (Or.inr (Or.inr (Or.inr (Or.inl rfl)))) hfree

theorem inv_step_body (v : XValue) (c : Conversation) (h : EngineInv c)
    (hst : c.current_state = .vehicle_body) :
    EngineInv (applyAccept .vehicle_body v c) := by
  obtain ⟨h1, -, -, h4⟩ := h
  have hfree := h4 (Or.inr (Or.inr (Or.inr (Or.inl hst))))
  cases v with
  | vstr s =>
    refine EngineInv_preuse _ ?_ (Or.inr (Or.inr (Or.inr (Or.inr rfl)))) ?_
    · intro u hu
      rcases mem_updateLast _ _ u hu with hm | ⟨u0, hu0, rfl⟩
      · exact h1 u hm
      · exact h1 u0 (mem_of_getLast?_eq hu0)
    · intro u hu
      have hu2 := (getLast?_updateLast _ c.vehicles).symm.trans hu
      rcases Option.map_eq_some'.mp hu2 with ⟨u0, hu0, rfl⟩
      exact hfree u0 hu0
  | vint n =>
    exact EngineInv_preuse _ h1 (Or.inr (Or.inr (Or.inr (Or.inr rfl)))) hfree
  | vbool b =>
    exact EngineInv_preuse _ h1 (Or.inr (Or.inr (Or.inr (Or.inr rfl)))) hfree
  | vvin p =>
    exact EngineInv_preuse _ h1 (Or.inr (Or.inr (Or.inr (Or.inr rfl)))) hfree
  | vchoice p =>
    exact EngineInv_preuse _ h1 (Or.inr (Or.inr (Or.inr (Or.inr rfl)))) hfree

theorem inv_step_use (v : XValue) (c : Conversation) (h : EngineInv c)
    (hst : c.current_state = .vehicle_use) :
    EngineInv (applyAccept .vehicle_use v c) := by
  obtain ⟨h1, -, -, h4⟩ := h
  have hfree := h4 (Or.inr (Or.inr (Or.inr (Or.inr hst))))
  cases v with
  | vstr s =>
    refine EngineInv_of_no_aux _ ?_ (fun hx => nomatch hx) (fun hx => nomatch hx)
      (fun hx => nomatch hx) (fun hx => nomatch hx) (fun hx => nomatch hx)
      (fun hx => nomatch hx) (fun hx => nomatch hx) (fun hx => nomatch hx)
    intro u hu
    rcases mem_updateLast _ _ u hu with hm | ⟨u0, hu0, rfl⟩
    · exact h1 u hm
    · obtain ⟨d1, d2, d3⟩ := hfree u0 hu0
      exact ⟨fun hx => (hx d1).elim, fun hx => (hx d2).elim, fun hx => (hx d3).elim⟩
  | vint n =>
    exact EngineInv_of_no_aux _ h1 (fun hx => nomatch hx) (fun hx => nomatch hx)
      (fun hx => nomatch hx) (fun hx => nomatch hx) (fun hx => nomatch hx)
      (fun hx => nomatch hx) (fun hx => nomatch hx) (fun hx => nomatch hx)
  | vbool b =>
    exact EngineInv_of_no_aux _ h1 (fun hx => nomatch hx) (fun hx => nomatch hx)
      (fun hx => nomatch hx) (fun hx => nomatch hx) (fun hx => nomatch hx)
      (fun hx => nomatch hx) (fun hx => nomatch hx) (fun hx => nomatch hx)
  | vvin p =>
    exact EngineInv_of_no_aux _ h1 (fun hx => nomatch hx) (fun hx => nomatch hx)
      (fun hx => nomatch hx) (fun hx => nomatch hx) (fun hx => nomatch hx)
      (fun hx => nomatch hx) (fun hx => nomatch hx) (fun hx => nomatch hx)
  | vchoice p =>
    exact EngineInv_of_no_aux _ h1 (fun hx => nomatch hx) (fun hx => nomatch hx)
      (fun hx => nomatch hx) (fun hx => nomatch hx) (fun hx => nomatch hx)
      (fun hx => nomatch hx) (fun hx => nomatch hx) (fun hx => nomatch hx)

theorem inv_step_cd (v : XValue) (c : Conversation) (h : EngineInv c)
    (hst : c.current_state = .commute_days) :
    EngineInv (applyAccept .commute_days v c) := by
  obtain ⟨h1, h2, -, -⟩ := h
  have hcomm := h2 (Or.inl hst)
  cases v with
  | vint n =>
    refine EngineInv_commute _ ?_ (Or.inr rfl) ?_
    · intro u hu
      rcases mem_updateLast _ _ u hu with hm | ⟨u0, hu0, rfl⟩
      · exact h1 u hm
      · exact ⟨fun _ => hcomm u0 hu0, fun hx => (h1 u0 (mem_of_getLast?_eq hu0)).2.1 hx,
          fun hx => (h1 u0 (mem_of_getLast?_eq hu0)).2.2 hx⟩
    · intro u hu
      have hu2 := (getLast?_updateLast _ c.vehicles).symm.trans hu
      rcases Option.map_eq_some'.mp hu2 with ⟨u0, hu0, rfl⟩
      exact hcomm u0 hu0
  | vstr s => exact EngineInv_commute _ h1 (Or.inr rfl) hcomm
  | vbool b => exact EngineInv_commute _ h1 (Or.inr rfl) hcomm
  | vvin p => exact EngineInv_commute _ h1 (Or.inr rfl) hcomm
  | vchoice p => exact EngineInv_commute _ h1 (Or.inr rfl) hcomm

theorem inv_step_cm (v : XValue) (c : Conversation) (h : EngineInv c)
    (hst : c.current_state = .commute_miles) :
    EngineInv (applyAccept .commute_miles v c) := by
  obtain ⟨h1, h2, -, -⟩ := h
  have hcomm := h2 (Or.inr hst)
  cases v with
  | vint n =>
    refine EngineInv_of_no_aux _ ?_ (fun hx => nomatch hx) (fun hx => nomatch hx)
      (fun hx => nomatch hx) (fun hx => nomatch hx) (fun hx => nomatch hx)
      (fun hx => nomatch hx) (fun hx => nomatch hx) (fun hx => nomatch hx)
    intro u hu
    rcases mem_updateLast _ _ u hu with hm | ⟨u0, hu0, rfl⟩
    · exact h1 u hm
    · exact ⟨fun hx => (h1 u0 (mem_of_getLast?_eq hu0)).1 hx, fun _ => hcomm u0 hu0,
        fun hx => (h1 u0 (mem_of_getLast?_eq hu0)).2.2 hx⟩
  | vstr s =>
    exact EngineInv_of_no_aux _ h1 (fun hx => nomatch hx) (fun hx => nomatch hx)
      (fun hx => nomatch hx) (fun hx => nomatch hx) (fun hx => nomatch hx)
      (fun hx => nomatch hx) (fun hx => nomatch hx) (fun hx => nomatch hx)
  | vbool b =>
    exact EngineInv_of_no_aux _ h1 (fun hx => nomatch hx) (fun hx => nomatch hx)
      (fun hx => nomatch hx) (fun hx => nomatch hx) (fun hx => nomatch hx)
      (fun hx => nomatch hx) (fun hx => nomatch hx) (fun hx => nomatch hx)
  | vvin p =>
    exact EngineInv_of_no_aux _ h1 (fun hx => nomatch hx) (fun hx => nomatch hx)
      (fun hx => nomatch hx) (fun hx => nomatch hx) (fun hx => nomatch hx)
      (fun hx => nomatch hx) (fun hx => nomatch hx) (fun hx => nomatch hx)
  | vchoice p =>
    exact EngineInv_of_no_aux _ h1 (fun hx => nomatch hx) (fun hx => nomatch hx)
      (fun hx => nomatch hx) (fun hx => nomatch hx) (fun hx => nomatch hx)
      (fun hx => nomatch hx) (fun hx => nomatch hx) (fun hx => nomatch hx)

theorem inv_step_am (v : XValue) (c : Conversation) (h : EngineInv c)
    (hst : c.current_state = .annual_mileage) :
    EngineInv (applyAccept .annual_mileage v c) := by
  obtain ⟨h1, -, h3, -⟩ := h
  have hann := h3 hst
  cases v with
  | vint n =>
    refine EngineInv_of_no_aux _ ?_ (fun hx => nomatch hx) (fun hx => nomatch hx)
      (fun hx => nomatch hx) (fun hx => nomatch hx) (fun hx => nomatch hx)
      (fun hx => nomatch hx) (fun hx => nomatch hx) (fun hx => nomatch hx)
    intro u hu
    rcases mem_updateLast _ _ u hu with hm | ⟨u0, hu0, rfl⟩
    · exact h1 u hm
    · exact ⟨fun hx => (h1 u0 (mem_of_getLast?_eq hu0)).1 hx,
        fun hx => (h1 u0 (mem_of_getLast?_eq hu0)).2.1 hx, fun _ => hann u0 hu0⟩
  | vstr s =>
    exact EngineInv_of_no_aux _ h1 (fun hx => nomatch hx) (fun hx => nomatch hx)
      (fun hx => nomatch hx) (fun hx => nomatch hx) (fun hx => nomatch hx)
      (fun hx => nomatch hx) (fun hx => nomatch hx) (fun hx => nomatch hx)
  | vbool b =>
    exact EngineInv_of_no_aux _ h1 (fun hx => nomatch hx) (fun hx => nomatch hx)
      (fun hx => nomatch hx) (fun hx => nomatch hx) (fun hx => nomatch hx)
      (fun hx => nomatch hx) (fun hx => nomatch hx) (fun hx => nomatch hx)
  | vvin p =>
    exact EngineInv_of_no_aux _ h1 (fun hx => nomatch hx) (fun hx => nomatch hx)
      (fun hx => nomatch hx) (fun hx => nomatch hx) (fun hx => nomatch hx)
      (fun hx => nomatch hx) (fun hx => nomatch hx) (fun hx => nomatch hx)
  | vchoice p =>
    exact EngineInv_of_no_aux _ h1 (fun hx => nomatch hx) (fun hx => nomatch hx)
      (fun hx => nomatch hx) (fun hx => nomatch hx) (fun hx => nomatch hx)
      (fun hx => nomatch hx) (fun hx => nomatch hx) (fun hx => nomatch hx)

/-- The accepted blind-spot turn with no open vehicle goes to
`annual_mileage`. -/
theorem inv_step_blind (v : XValue) (c : Conversation) (h : EngineInv c) :
    EngineInv (applyAccept .blind_spot_warning v c) := by
  obtain ⟨h1, -, -, -⟩ := h
  cases v with
  | vbool b =>
    have hp1 : ∀ u ∈ (save_value .blind_spot_warning (.vbool b) c).vehicles,
        vehicleOK u := by
      intro u hu
      rcases mem_updateLast _ _ u hu with hm | ⟨u0, hu0, rfl⟩
      · exact h1 u hm
      · exact h1 u0 (mem_of_getLast?_eq hu0)
    rcases hlast : c.vehicles.getLast? with _ | u0
    · refine EngineInv_annual _ hp1 ?_ ?_
      · show get_next_state .blind_spot_warning (.vbool b)
          (save_value .blind_spot_warning (.vbool b) c) = .annual_mileage
        simp only [get_next_state, get_current_vehicle, save_value,
          updateCurrentVehicle]
        rw [getLast?_updateLast, hlast]
        rfl
      · intro u hu
        have hu2 := (getLast?_updateLast _ c.vehicles).symm.trans hu
        rw [hlast] at hu2
        cases hu2
    · by_cases hcu : u0.vehicle_use = some "commuting"
      · refine EngineInv_commute _ hp1 (Or.inl ?_) ?_
        · show get_next_state .blind_spot_warning (.vbool b)
            (save_value .blind_spot_warning (.vbool b) c) = .commute_days
          simp only [get_next_state, get_current_vehicle, save_value,
            updateCurrentVehicle]
          rw [getLast?_updateLast, hlast]
          show (if u0.vehicle_use = some "commuting" then ConversationState.commute_days
            else ConversationState.annual_mileage) = ConversationState.commute_days
          rw [if_pos hcu]
        · intro u hu
          have hu2 := (getLast?_updateLast _ c.vehicles).symm.trans hu
          rw [hlast, Option.map_some'] at hu2
          injection hu2 with hu2
          subst hu2
          exact hcu
      · refine EngineInv_annual _ hp1 ?_ ?_
        · show get_next_state .blind_spot_warning (.vbool b)
            (save_value .blind_spot_warning (.vbool b) c) = .annual_mileage
          simp only [get_next_state, get_current_vehicle, save_value,
            updateCurrentVehicle]
          rw [getLast?_updateLast, hlast]
          show (if u0.vehicle_use = some "commuting" then ConversationState.commute_days
            else ConversationState.annual_mileage) = ConversationState.annual_mileage
          rw [if_neg hcu]
        · intro u hu
          have hu2 := (getLast?_updateLast _ c.vehicles).symm.trans hu
          rw [hlast, Option.map_some'] at hu2
          injection hu2 with hu2
          subst hu2
          exact hcu
  | vstr s =>
    rcases hlast : c.vehicles.getLast? with _ | u0
    · refine EngineInv_annual _ h1 ?_ ?_
      · show get_next_state .blind_spot_warning (.vstr s) c = .annual_mileage
        simp only [get_next_state, get_current_vehicle]
        rw [hlast]
      · intro u hu
        have hu2 : c.vehicles.getLast? = some u := hu
        rw [hlast] at hu2
        cases hu2
    · by_cases hcu : u0.vehicle_use = some "commuting"
      · refine EngineInv_commute _ h1 (Or.inl ?_) ?_
        · show get_next_state .blind_spot_warning (.vstr s) c = .commute_days
          simp only [get_next_state, get_current_vehicle]
          rw [hlast]
          show (if u0.vehicle_use = some "commuting" then ConversationState.commute_days
            else ConversationState.annual_mileage) = ConversationState.commute_days
          rw [if_pos hcu]
        · intro u hu
          have hu2 : c.vehicles.getLast? = some u := hu
          rw [hlast] at hu2
          injection hu2 with hu2
          subst hu2
          exact hcu
      · refine EngineInv_annual _ h1 ?_ ?_
        · show get_next_state .blind_spot_warning (.vstr s) c = .annual_mileage
          simp only [get_next_state, get_current_vehicle]
          rw [hlast]
          show (if u0.vehicle_use = some "commuting" then ConversationState.commute_days
            else ConversationState.annual_mileage) = ConversationState.annual_mileage
          rw [if_neg hcu]
        · intro u hu
          have hu2 : c.vehicles.getLast? = some u := hu
          rw [hlast] at hu2
          injection hu2 with hu2
          subst hu2
          exact hcu
  | vint n =>
    rcases hlast : c.vehicles.getLast? with _ | u0
    · refine EngineInv_annual _ h1 ?_ ?_
      · show get_next_state .blind_spot_warning (.vint n) c = .annual_mileage
        simp only [get_next_state, get_current_vehicle]
        rw [hlast]
      · intro u hu
        have hu2 : c.vehicles.getLast? = some u := hu
        rw [hlast] at hu2
        cases hu2
    · by_cases hcu : u0.vehicle_use = some "commuting"
      · refine EngineInv_commute _ h1 (Or.inl ?_) ?_
        · show get_next_state .blind_spot_warning (.vint n) c = .commute_days
          simp only [get_next_state, get_current_vehicle]
          rw [hlast]
          show (if u0.vehicle_use = some "commuting" then ConversationState.commute_days
            else ConversationState.annual_mileage) = ConversationState.commute_days
          rw [if_pos hcu]
        · intro u hu
          have hu2 : c.vehicles.getLast? = some u := hu
          rw [hlast] at hu2
          injection hu2 with hu2
          subst hu2
          exact hcu
      · refine EngineInv_annual _ h1 ?_ ?_
        · show get_next_state .blind_spot_warning (.vint n) c = .annual_mileage
          simp only [get_next_state, get_current_vehicle]
          rw [hlast]
          show (if u0.vehicle_use = some "commuting" then ConversationState.commute_days
            else ConversationState.annual_mileage) = ConversationState.annual_mileage
          rw [if_neg hcu]
        · intro u hu
          have hu2 : c.vehicles.getLast? = some u := hu
          rw [hlast] at hu2
          injection hu2 with hu2
          subst hu2
          exact hcu
  | vvin p =>
    rcases hlast : c.vehicles.getLast? with _ | u0
    · refine EngineInv_annual _ h1 ?_ ?_
      · show get_next_state .blind_spot_warning (.vvin p) c = .annual_mileage
        simp only [get_next_state, get_current_vehicle]
        rw [hlast]
      · intro u hu
        have hu2 : c.vehicles.getLast? = some u := hu
        rw [hlast] at hu2
        cases hu2
    · by_cases hcu : u0.vehicle_use = some "commuting"
      · refine EngineInv_commute _ h1 (Or.inl ?_) ?_
        · show get_next_state .blind_spot_warning (.vvin p) c = .commute_days
          simp only [get_next_state, get_current_vehicle]
          rw [hlast]
          show (if u0.vehicle_use = some "commuting" then ConversationState.commute_days
            else ConversationState.annual_mileage) = ConversationState.commute_days
          rw [if_pos hcu]
        · intro u hu
          have hu2 : c.vehicles.getLast? = some u := hu
          rw [hlast] at hu2
          injection hu2 with hu2
          subst hu2
          exact hcu
      · refine EngineInv_annual _ h1 ?_ ?_
        · show get_next_state .blind_spot_warning (.vvin p) c = .annual_mileage
          simp only [get_next_state, get_current_vehicle]
          rw [hlast]
          show (if u0.vehicle_use = some "commuting" then ConversationState.commute_days
            else ConversationState.annual_mileage) = ConversationState.annual_mileage
          rw [if_neg hcu]
        · intro u hu
          have hu2 : c.vehicles.getLast? = some u := hu
          rw [hlast] at hu2
          injection hu2 with hu2
          subst hu2
          exact hcu
  | vchoice p =>
    rcases hlast : c.vehicles.getLast? with _ | u0
    · refine EngineInv_annual _ h1 ?_ ?_
      · show get_next_state .blind_spot_warning (.vchoice p) c = .annual_mileage
        simp only [get_next_state, get_current_vehicle]
        rw [hlast]
      · intro u hu
        have hu2 : c.vehicles.getLast? = some u := hu
        rw [hlast] at hu2
        cases hu2
    · by_cases hcu : u0.vehicle_use = some "commuting"
      · refine EngineInv_commute _ h1 (Or.inl ?_) ?_
        · show get_next_state .blind_spot_warning (.vchoice p) c = .commute_days
          simp only [get_next_state, get_current_vehicle]
          rw [hlast]
          show (if u0.vehicle_use = some "commuting" then ConversationState.commute_days
            else ConversationState.annual_mileage) = ConversationState.commute_days
          rw [if_pos hcu]
        · intro u hu
          have hu2 : c.vehicles.getLast? = some u := hu
          rw [hlast] at hu2
          injection hu2 with hu2
          subst hu2
          exact hcu
      · refine EngineInv_annual _ h1 ?_ ?_
        · show get_next_state .blind_spot_warning (.vchoice p) c = .annual_mileage
          simp only [get_next_state, get_current_vehicle]
          rw [hlast]
          show (if u0.vehicle_use = some "commuting" then ConversationState.commute_days
            else ConversationState.annual_mileage) = ConversationState.annual_mileage
          rw [if_neg hcu]
        · intro u hu
          have hu2 : c.vehicles.getLast? = some u := hu
          rw [hlast] at hu2
          injection hu2 with hu2
          subst hu2
          exact hcu

/-- One full turn preserves the invariant, whatever the collaborator
returns and whatever the user types. -/
theorem EngineInv_process (svc : Nhtsa) (msg : String) (c : Conversation)
    (h : EngineInv c) : EngineInv (process_message svc c msg).1 := by
  cases hf : check_frustration msg with
  | true =>
    simp [process_message, hf]
    exact h
  | false =>
    rcases hv : validate_and_extract svc c.current_state msg c with ⟨b, v?, e?⟩
    cases b with
    | false =>
      simp [process_message, hf, hv]
      exact h
    | true =>
      cases v? with
      | none =>
        simp [process_message, hf, hv]
        exact h
      | some v =>
        simp only [process_message, hf, hv]
        cases hst : c.current_state with
        | zip_code => exact inv_step_zip v c h
        | full_name => exact inv_step_full_name v c h
        | email => exact inv_step_email v c h
        | vehicle_choice => exact inv_step_choice v c h
        | vehicle_vin => exact inv_step_vin v c h hst
        | vehicle_year => exact inv_step_year v c h hst
        | vehicle_make => exact inv_step_make v c h hst
        | vehicle_body => exact inv_step_body v c h hst
        | vehicle_use => exact inv_step_use v c h hst
        | blind_spot_warning => exact inv_step_blind v c h
        | commute_days => exact inv_step_cd v c h hst
        | commute_miles => exact inv_step_cm v c h hst
        | annual_mileage => exact inv_step_am v c h hst
        | add_another_vehicle => exact inv_step_add_another v c h
        | license_type => exact inv_step_license_type v c h
        | license_status => exact inv_step_license_status v c h
        | complete => exact inv_step_complete v c h

/-- Every reachable conversation satisfies the invariant. -/
theorem Reachable_EngineInv {c : Conversation} (h : Reachable c) : EngineInv c := by
  induction h with
  | init =>
    refine ⟨?_, ?_, ?_, ?_⟩
    · intro u hu; cases hu
    · intro hx; rcases hx with hx | hx <;> cases hx
    · intro hx; cases hx
    · intro hx; rcases hx with hx | hx | hx | hx | hx <;> cases hx
  | step svc msg hr ih => exact EngineInv_process svc msg _ ih

theorem convW_reachable : Reachable convW :=
  .step svcW "10" (.step svcW "5" (.step svcW "yes" (.step svcW "commuting"
    (.step svcW "sedan" (.step svcW "Toyota" (.step svcW "2020"
      (.step svcW "manual" (.step svcW "a@b.com" (.step svcW "John Smith"
        (.step svcW "90210" .init))))))))))

/-- Claim C2: in every reachable conversation, every vehicle has its
commuting fields (`days_per_week`, `one_way_miles`) populated only when its
`vehicle_use` is "commuting", its `annual_mileage` populated only when its
use is not "commuting", and never both groups at once. -/
theorem C2_mileage_fields_exclusive (c : Conversation) (hr : Reachable c) :
    ∀ u ∈ c.vehicles,
      ((u.days_per_week ≠ none ∨ u.one_way_miles ≠ none) →
        u.vehicle_use = some "commuting") ∧
      (u.annual_mileage ≠ none → u.vehicle_use ≠ some "commuting") ∧
      ¬((u.days_per_week ≠ none ∨ u.one_way_miles ≠ none) ∧
        u.annual_mileage ≠ none) := by
  intro u hu
  obtain ⟨h1, -, -, -⟩ := Reachable_EngineInv hr
  obtain ⟨ha, hb, hc⟩ := h1 u hu
  exact ⟨fun hx => hx.elim ha hb, hc, fun hx => (hc hx.2) (hx.1.elim ha hb)⟩

theorem C2_witness :
    ((vehW.days_per_week ≠ none ∨ vehW.one_way_miles ≠ none) →
      vehW.vehicle_use = some "commuting") ∧
    (vehW.annual_mileage ≠ none → vehW.vehicle_use ≠ some "commuting") ∧
    ¬((vehW.days_per_week ≠ none ∨ vehW.one_way_miles ≠ none) ∧
      vehW.annual_mileage ≠ none) :=
  C2_mileage_fields_exclusive convW convW_reachable vehW (by decide)

/-- Claim C6: once the state is `complete`, every subsequent turn leaves the
conversation — state, applicant fields and all vehicles — unchanged,
whatever the input text. -/
theorem C6_complete_terminal (svc : Nhtsa) (c : Conversation) (msg : String)
    (hc : c.current_state = .complete) : (process_message svc c msg).1 = c := by
  cases hf : check_frustration msg with
  | true => simp [process_message, hf]
  | false =>
    have hv : validate_and_extract svc c.current_state msg c
        = (true, some (.vstr (pyStrip msg)), none) := by
      rw [hc]
      rfl
    simp only [process_message, hf, hv]
    rw [hc]
    show { c with current_state := ConversationState.complete } = c
    rw [← hc]

theorem C6_witness : (process_message svcW convC "hello again").1 = convC :=
  C6_complete_terminal svcW convC "hello again" rfl

/-- Claim C5: a turn whose input the current validator rejects leaves the
conversation state and the whole record (including every vehicle)
unchanged; the rejection reason is only mapped into the side-channel
guidance for the reply generator (empty reasons yield no guidance). -/
theorem C5_rejection_atomic (svc : Nhtsa) (c : Conversation) (msg : String)
    (hrej : (validate_and_extract svc c.current_state msg c).1 = false) :
    (process_message svc c msg).1 = c ∧
    (check_frustration msg = false →
      (process_message svc c msg).2 =
        match (validate_and_extract svc c.current_state msg c).2.2 with
        | some e =>
          if e = "" then none
          else some ("The user\x27s input was invalid. Error: " ++ e)
        | none => none) := by
  rcases hv : validate_and_extract svc c.current_state msg c with ⟨b, v?, e?⟩
  rw [hv] at hrej
  have hb : b = false := hrej
  subst hb
  constructor
  · cases hf : check_frustration msg with
    | true => simp [process_message, hf]
    | false => simp [process_message, hf, hv]
  · intro hf
    simp [process_message, hf, hv]

theorem C5_witness :
    (process_message svcW initial_conversation "hi").1 = initial_conversation ∧
    (check_frustration "hi" = false →
      (process_message svcW initial_conversation "hi").2 =
        match (validate_and_extract svcW initial_conversation.current_state "hi"
            initial_conversation).2.2 with
        | some e =>
          if e = "" then none
          else some ("The user\x27s input was invalid. Error: " ++ e)
        | none => none) :=
  C5_rejection_atomic svcW initial_conversation "hi" (by decide)

/-- Claim C10: in every per-vehicle state, when the vehicle list is empty
the open-vehicle accessor returns `none` and the mutator leaves the record
unchanged without failing: the accepted value is silently discarded. -/
theorem C10_empty_vehicles_noop (st : ConversationState)
    (hst : st ∈ [ConversationState.vehicle_vin, .vehicle_year, .vehicle_make,
      .vehicle_body, .vehicle_use, .blind_spot_warning, .commute_days,
      .commute_miles, .annual_mileage]) (v : XValue) (c : Conversation)
    (hveh : c.vehicles = []) :
    get_current_vehicle c = none ∧ save_value st v c = c := by
  have hupd : ∀ f, updateCurrentVehicle c f = c := by
    intro f
    cases c with
    | mk z fn e lt ls cs vs =>
      have h2 : vs = [] := hveh
      subst h2
      rfl
  constructor
  · rw [get_current_vehicle, hveh]
    rfl
  · fin_cases hst <;> cases v <;> first | exact hupd _ | rfl

theorem C10_witness :
    get_current_vehicle initial_conversation = none ∧
    save_value .commute_days (.vint 3) initial_conversation
      = initial_conversation :=
  C10_empty_vehicles_noop .commute_days (by decide) (.vint 3)
    initial_conversation rfl

/-- Claim C9: the year argument never influences the make plausibility
verdict — `validate_year_make` is constant in its year for identical
lookup responses, and consequently the whole `vehicle_make` validator is
independent of the conversation (hence of the open vehicle's year). -/
theorem C9_year_noninterference :
    (∀ (y1 y2 : Option Int) (make : String) (r1 : HttpOutcome (List CarMakeRow))
        (r2 : HttpOutcome (List AllMakeRow)),
      validate_year_make y1 make r1 r2 = validate_year_make y2 make r1 r2) ∧
    (∀ (dr : String → HttpOutcome (List DecodeRow))
        (m1 : HttpOutcome (List CarMakeRow)) (m2 : HttpOutcome (List AllMakeRow))
        (c1 c2 : Conversation) (input : String),
      validate_and_extract (serviceOf dr m1 m2) .vehicle_make input c1 =
        validate_and_extract (serviceOf dr m1 m2) .vehicle_make input c2) := by
  constructor
  · intro y1 y2 make r1 r2
    rfl
  · intro dr m1 m2 c1 c2 input
    rfl

/-- Claim C7: the two lookup fallback policies are asymmetric.  A timeout or
failure of the year/make call yields a non-blocking valid verdict with a
warning (and the `vehicle_make` validator then accepts), whereas a timeout
or failure of the VIN decode yields an invalid verdict with an error (and
the `vehicle_vin` validator then rejects). -/
theorem C7_fallback_asymmetry :
    (∀ vin : String, decode_vin vin .timeout =
      { valid := false
        error := some "Vehicle verification service timed out. Please try again." }) ∧
    (∀ (vin m : String), decode_vin vin (.failure m) =
      { valid := false, error := some ("Error verifying vehicle: " ++ m) }) ∧
    (∀ (y : Option Int) (make : String) (r2 : HttpOutcome (List AllMakeRow)),
      validate_year_make y make .timeout r2 =
        { valid := true, warning := some "Could not verify make, proceeding anyway." }) ∧
    (∀ (y : Option Int) (make m : String) (r2 : HttpOutcome (List AllMakeRow)),
      validate_year_make y make (.failure m) r2 =
        { valid := true, warning := some "Could not verify make, proceeding anyway." }) ∧
    (∀ (dr : String → HttpOutcome (List DecodeRow))
        (m2 : HttpOutcome (List AllMakeRow)) (c : Conversation) (input : String),
      2 ≤ (pyStrip input).data.length →
      validate_and_extract (serviceOf dr .timeout m2) .vehicle_make input c =
        (true, some (.vstr (pyTitle (pyStrip input))), none)) ∧
    (∀ (m1 : HttpOutcome (List CarMakeRow)) (m2 : HttpOutcome (List AllMakeRow))
        (c : Conversation) (input : String),
      (validate_and_extract (serviceOf (fun _ => .timeout) m1 m2)
        .vehicle_vin input c).1 = false) := by
  refine ⟨fun vin => rfl, fun vin m => rfl, fun y make r2 => rfl,
    fun y make m r2 => rfl, ?_, ?_⟩
  · intro dr m2 c input h
    simp only [validate_and_extract, serviceOf, validate_year_make]
    rw [if_pos h]
    rfl
  · intro m1 m2 c input
    simp only [validate_and_extract, serviceOf]
    cases hfind : vinFind (pyUpper (pyStrip input)) with
    | none => rfl
    | some vin => rfl

theorem C7_witness :
    validate_and_extract (serviceOf (fun _ => .timeout) HttpOutcome.timeout
        HttpOutcome.timeout) .vehicle_make "Toyota" initial_conversation
      = (true, some (.vstr "Toyota"), none) ∧
    (validate_and_extract (serviceOf (fun _ => .timeout) HttpOutcome.timeout
        HttpOutcome.timeout) .vehicle_vin "1HGCM82633A004352"
        initial_conversation).1 = false :=
  ⟨C7_fallback_asymmetry.2.2.2.2.1 (fun _ => .timeout) HttpOutcome.timeout
      initial_conversation "Toyota" (by decide),
   C7_fallback_asymmetry.2.2.2.2.2 HttpOutcome.timeout HttpOutcome.timeout
      initial_conversation "1HGCM82633A004352"⟩

/-- Claim C1 counterexample: at `add_another_vehicle` with one vehicle,
accepting "yes" moves the state to `vehicle_choice` but appends NO vehicle
sub-record — the vehicle list is unchanged, contradicting the claimed
append on that turn. -/
theorem C1_counterexample :
    (process_message svcW convA "yes").1.current_state = .vehicle_choice ∧
    (process_message svcW convA "yes").1.vehicles = convA.vehicles ∧
    convA.vehicles.length = 1 := by decide

/-- Claim C1 (amended): accepting an affirmative at `add_another_vehicle`
returns to `vehicle_choice` with the record — vehicle list included —
unchanged; the new vehicle sub-record is appended by the next accepted
`vehicle_choice` turn, which grows the list by exactly one, so the count
still increases by exactly one per loop iteration. -/
theorem C1_amended :
    (∀ (svc : Nhtsa) (c : Conversation) (msg : String),
      c.current_state = .add_another_vehicle → check_frustration msg = false →
      validate_and_extract svc .add_another_vehicle msg c
        = (true, some (.vbool true), none) →
      (process_message svc c msg).1 = { c with current_state := .vehicle_choice }) ∧
    (∀ (svc : Nhtsa) (c : Conversation) (msg : String) (v : XValue) (e : Option String),
      c.current_state = .vehicle_choice → check_frustration msg = false →
      validate_and_extract svc .vehicle_choice msg c = (true, some v, e) →
      (process_message svc c msg).1.vehicles.length = c.vehicles.length + 1) := by
  constructor
  · intro svc c msg hc hf hv
    rw [process_message, hf]
    simp only [hc, hv]
    rfl
  · intro svc c msg v e hc hf hv
    rw [process_message, hf]
    simp only [hc, hv]
    cases v <;> simp [applyAccept, save_value]

theorem C1_witness :
    (process_message svcW convA "yes").1
      = { convA with current_state := .vehicle_choice } ∧
    (process_message svcW convB "manual").1.vehicles.length
      = convB.vehicles.length + 1 :=
  ⟨C1_amended.1 svcW convA "yes" rfl (by decide) (by decide),
   C1_amended.2 svcW convB "manual" (.vstr "manual") none rfl (by decide) (by decide)⟩

/-- Claim C3 counterexample: a decode that SUCCEEDS but reports the
non-numeric year "N/A" (which `decode_vin` passes through unchanged) makes
the `vehicle_choice` turn raise inside `_save_value` — `int("N/A")` at
line 304 — so the exception escapes and the state does NOT transition to
`vehicle_use`, refuting the claim for a collaborator output the system
admits. -/
theorem C3_counterexample :
    (svcBadYear.decode "1HGCM82633A004352").valid = true ∧
    (svcBadYear.decode "1HGCM82633A004352").year = some "N/A" ∧
    turn_raises svcBadYear convVC "1HGCM82633A004352" = true ∧
    process_message_exc svcBadYear convVC "1HGCM82633A004352" = none := by decide

/-- Claim C3 (amended): for every input containing a standalone
17-character VIN submitted at `vehicle_choice` whose decode succeeds AND
whose decoded year is absent, empty, or a valid integer literal, the turn
completes without raising, a new vehicle sub-record is created with vin,
year, make and body type populated from the decode result, and the state
moves directly to `vehicle_use` in this single turn (so `vehicle_vin`,
`vehicle_year`, `vehicle_make`, `vehicle_body` are never visited); a
successful decode with a truthy unparseable year instead raises in
`_save_value` and performs no transition. -/
theorem C3_vin_shortcut (svc : Nhtsa) (c : Conversation) (msg vin : String)
    (hc : c.current_state = .vehicle_choice) (hf : check_frustration msg = false)
    (hfind : vinFind (pyUpper (pyStrip msg)) = some vin)
    (hok : (svc.decode vin).valid = true)
    (hyear : pyIntOptRaises (svc.decode vin).year = false) :
    process_message_exc svc c msg = some (process_message svc c msg) ∧
    (process_message svc c msg).1.current_state = .vehicle_use ∧
    (process_message svc c msg).1.vehicles = c.vehicles ++
      [{ vin := some vin, year := pyIntOpt (svc.decode vin).year,
         make := (svc.decode vin).make,
         body_type := (svc.decode vin).body_class }] := by
  have hv : validate_and_extract svc .vehicle_choice msg c =
      (true, some (.vchoice (payloadOf vin (svc.decode vin))), none) := by
    simp only [validate_and_extract, hfind, hok]
    rfl
  have hnr : turn_raises svc c msg = false := by
    rw [turn_raises, hf, hc, hv]
    exact hyear
  refine ⟨?_, ?_⟩
  · rw [process_message_exc, hnr]
    rfl
  · rw [process_message, hf]
    simp only [hv, hc]
    exact ⟨rfl, rfl⟩

theorem C3_witness :
    process_message_exc svcOKW convVC "1HGCM82633A004352"
      = some (process_message svcOKW convVC "1HGCM82633A004352") ∧
    (process_message svcOKW convVC "1HGCM82633A004352").1.current_state
      = .vehicle_use ∧
    (process_message svcOKW convVC "1HGCM82633A004352").1.vehicles
      = convVC.vehicles ++
        [{ vin := some "1HGCM82633A004352",
           year := pyIntOpt (svcOKW.decode "1HGCM82633A004352").year,
           make := (svcOKW.decode "1HGCM82633A004352").make,
           body_type := (svcOKW.decode "1HGCM82633A004352").body_class }] :=
  C3_vin_shortcut svcOKW convVC "1HGCM82633A004352" "1HGCM82633A004352" rfl
    (by decide) (by decide) rfl (by decide)

/-- Claim C4 counterexample: the `complete` state falls through to the
catch-all validator, which ACCEPTS the empty input verbatim instead of
rejecting it. -/
theorem C4_counterexample :
    validate_and_extract svcW .complete "" initial_conversation
      = (true, some (.vstr ""), none) := rfl

/-- Claim C4 (amended): for every state except `complete`, an empty or
whitespace-only input is rejected without crashing; every such state except
`vehicle_choice` returns a non-empty guidance message, `vehicle_choice`
silently rejects with no guidance, and `complete` (the catch-all branch)
accepts the stripped input verbatim. -/
theorem C4_empty_input (svc : Nhtsa) (c : Conversation) (msg : String)
    (hmsg : pyStrip msg = "") (st : ConversationState) :
    (st ≠ .vehicle_choice → st ≠ .complete →
      (validate_and_extract svc st msg c).1 = false ∧
      ∃ e, (validate_and_extract svc st msg c).2.2 = some e ∧ e ≠ "") ∧
    (st = .vehicle_choice →
      validate_and_extract svc st msg c = (false, none, none)) ∧
    (st = .complete →
      validate_and_extract svc st msg c = (true, some (.vstr ""), none)) := by
  cases st
  case zip_code =>
    refine ⟨fun _ _ => ?_, fun hx => ?_, fun hx => ?_⟩
    case refine_2 => exact nomatch hx
    case refine_3 => exact nomatch hx
    simp only [validate_and_extract, hmsg]
    exact ⟨rfl, "Please provide a valid 5-digit ZIP code.", rfl, by decide⟩
  case full_name =>
    refine ⟨fun _ _ => ?_, fun hx => ?_, fun hx => ?_⟩
    case refine_2 => exact nomatch hx
    case refine_3 => exact nomatch hx
    simp only [validate_and_extract, hmsg]
    exact ⟨rfl, "Please provide your full name.", rfl, by decide⟩
  case email =>
    refine ⟨fun _ _ => ?_, fun hx => ?_, fun hx => ?_⟩
    case refine_2 => exact nomatch hx
    case refine_3 => exact nomatch hx
    simp only [validate_and_extract, hmsg]
    exact ⟨rfl, "Please provide a valid email address.", rfl, by decide⟩
  case vehicle_choice =>
    refine ⟨fun hne _ => absurd rfl hne, fun _ => ?_, fun hx => ?_⟩
    case refine_2 => exact nomatch hx
    simp only [validate_and_extract, hmsg]
    all_goals rfl
  case vehicle_vin =>
    refine ⟨fun _ _ => ?_, fun hx => ?_, fun hx => ?_⟩
    case refine_2 => exact nomatch hx
    case refine_3 => exact nomatch hx
    simp only [validate_and_extract, hmsg]
    exact ⟨rfl, "Please provide a valid 17-character VIN.", rfl, by decide⟩
  case vehicle_year =>
    refine ⟨fun _ _ => ?_, fun hx => ?_, fun hx => ?_⟩
    case refine_2 => exact nomatch hx
    case refine_3 => exact nomatch hx
    simp only [validate_and_extract, hmsg]
    exact ⟨rfl, "Please provide a valid vehicle year (e.g., 2020).", rfl, by decide⟩
  case vehicle_make =>
    refine ⟨fun _ _ => ?_, fun hx => ?_, fun hx => ?_⟩
    case refine_2 => exact nomatch hx
    case refine_3 => exact nomatch hx
    simp only [validate_and_extract, hmsg]
    exact ⟨rfl, "Please provide the vehicle make.", rfl, by decide⟩
  case vehicle_body =>
    refine ⟨fun _ _ => ?_, fun hx => ?_, fun hx => ?_⟩
    case refine_2 => exact nomatch hx
    case refine_3 => exact nomatch hx
    simp only [validate_and_extract, hmsg]
    exact ⟨rfl, "Please provide the body type (e.g., Sedan, SUV, Truck).", rfl, by decide⟩
  case vehicle_use =>
    refine ⟨fun _ _ => ?_, fun hx => ?_, fun hx => ?_⟩
    case refine_2 => exact nomatch hx
    case refine_3 => exact nomatch hx
    simp only [validate_and_extract, hmsg]
    exact ⟨rfl, "Please specify: Commuting, Commercial, Farming, or Business.", rfl, by decide⟩
  case blind_spot_warning =>
    refine ⟨fun _ _ => ?_, fun hx => ?_, fun hx => ?_⟩
    case refine_2 => exact nomatch hx
    case refine_3 => exact nomatch hx
    simp only [validate_and_extract, hmsg]
    exact ⟨rfl, "Please answer Yes or No.", rfl, by decide⟩
  case commute_days =>
    refine ⟨fun _ _ => ?_, fun hx => ?_, fun hx => ?_⟩
    case refine_2 => exact nomatch hx
    case refine_3 => exact nomatch hx
    simp only [validate_and_extract, hmsg]
    exact ⟨rfl, "Please provide days per week (1-7).", rfl, by decide⟩
  case commute_miles =>
    refine ⟨fun _ _ => ?_, fun hx => ?_, fun hx => ?_⟩
    case refine_2 => exact nomatch hx
    case refine_3 => exact nomatch hx
    simp only [validate_and_extract, hmsg]
    exact ⟨rfl, "Please provide the one-way distance in miles.", rfl, by decide⟩
  case annual_mileage =>
    refine ⟨fun _ _ => ?_, fun hx => ?_, fun hx => ?_⟩
    case refine_2 => exact nomatch hx
    case refine_3 => exact nomatch hx
    simp only [validate_and_extract, hmsg]
    exact ⟨rfl, "Please provide estimated annual mileage.", rfl, by decide⟩
  case add_another_vehicle =>
    refine ⟨fun _ _ => ?_, fun hx => ?_, fun hx => ?_⟩
    case refine_2 => exact nomatch hx
    case refine_3 => exact nomatch hx
    simp only [validate_and_extract, hmsg]
    exact ⟨rfl, "Would you like to add another vehicle? (Yes/No)", rfl, by decide⟩
  case license_type =>
    refine ⟨fun _ _ => ?_, fun hx => ?_, fun hx => ?_⟩
    case refine_2 => exact nomatch hx
    case refine_3 => exact nomatch hx
    simp only [validate_and_extract, hmsg]
    exact ⟨rfl, "Please specify: Foreign, Personal, or Commercial.", rfl, by decide⟩
  case license_status =>
    refine ⟨fun _ _ => ?_, fun hx => ?_, fun hx => ?_⟩
    case refine_2 => exact nomatch hx
    case refine_3 => exact nomatch hx
    simp only [validate_and_extract, hmsg]
    exact ⟨rfl, "Please specify: Valid or Suspended.", rfl, by decide⟩
  case complete =>
    refine ⟨fun _ hne => absurd rfl hne, fun hx => ?_, fun _ => ?_⟩
    case refine_1 => exact nomatch hx
    simp only [validate_and_extract, hmsg]

theorem C4_witness :
    ((ConversationState.zip_code ≠ .vehicle_choice →
      ConversationState.zip_code ≠ .complete →
      (validate_and_extract svcW .zip_code "   " initial_conversation).1 = false ∧
      ∃ e, (validate_and_extract svcW .zip_code "   "
          initial_conversation).2.2 = some e ∧ e ≠ "") ∧
    (ConversationState.zip_code = .vehicle_choice →
      validate_and_extract svcW .zip_code "   " initial_conversation
        = (false, none, none)) ∧
    (ConversationState.zip_code = .complete →
      validate_and_extract svcW .zip_code "   " initial_conversation
        = (true, some (.vstr ""), none))) :=
  C4_empty_input svcW initial_conversation "   " (by decide) .zip_code

/-- Claim C8 counterexample: on "yes not", which contains keywords from
both sets, the source order (affirmative first) yields `true` while the
negative-first order yields `false` — the outcome is NOT
order-independent. -/
theorem C8_counterexample :
    validate_and_extract svcW .blind_spot_warning "yes not" initial_conversation
      = (true, some (.vbool true), none) ∧
    blind_spot_negative_first "yes not" = (true, some (.vbool false), none) ∧
    ¬(validate_and_extract svcW .blind_spot_warning "yes not"
        initial_conversation
      = blind_spot_negative_first "yes not") := by decide

/-- Claim C8 (amended): the blind-spot validator tests the affirmative set
{yes, yeah, yep, have, equipped, does} and then the negative set
{no, nope, not, don\x27t, doesn\x27t}; the two testing orders agree on
every input that does not contain keywords of both sets, and on an input
matching both sets the code's affirmative-first order answers `true` while
the negative-first order answers `false`. -/
theorem C8_order (svc : Nhtsa) (c : Conversation) (input : String) :
    (¬(["yes", "yeah", "yep", "have", "equipped", "does"].any
        (fun w => containsSub w (pyLower (pyStrip input))) = true ∧
      ["no", "nope", "not", "don\x27t", "doesn\x27t"].any
        (fun w => containsSub w (pyLower (pyStrip input))) = true) →
      validate_and_extract svc .blind_spot_warning input c
        = blind_spot_negative_first input) ∧
    ((["yes", "yeah", "yep", "have", "equipped", "does"].any
        (fun w => containsSub w (pyLower (pyStrip input))) = true ∧
      ["no", "nope", "not", "don\x27t", "doesn\x27t"].any
        (fun w => containsSub w (pyLower (pyStrip input))) = true) →
      validate_and_extract svc .blind_spot_warning input c
        = (true, some (.vbool true), none) ∧
      blind_spot_negative_first input = (true, some (.vbool false), none)) := by
  cases haff : (["yes", "yeah", "yep", "have", "equipped", "does"].any
      (fun w => containsSub w (pyLower (pyStrip input)))) with
  | true =>
    cases hneg : (["no", "nope", "not", "don\x27t", "doesn\x27t"].any
        (fun w => containsSub w (pyLower (pyStrip input)))) with
    | true =>
      constructor
      · intro hx
        exact absurd ⟨rfl, rfl⟩ hx
      · intro _
        constructor
        · simp only [validate_and_extract, haff]
          rfl
        · simp only [blind_spot_negative_first, hneg]
          rfl
    | false =>
      constructor
      · intro _
        simp only [validate_and_extract, blind_spot_negative_first, haff, hneg]
        rfl
      · intro hx
        exact absurd hx.2 (by simp [hneg])
  | false =>
    cases hneg : (["no", "nope", "not", "don\x27t", "doesn\x27t"].any
        (fun w => containsSub w (pyLower (pyStrip input)))) with
    | true =>
      constructor
      · intro _
        simp only [validate_and_extract, blind_spot_negative_first, haff, hneg]
        rfl
      · intro hx
        exact absurd hx.1 (by simp [haff])
    | false =>
      constructor
      · intro _
        simp only [validate_and_extract, blind_spot_negative_first, haff, hneg]
        rfl
      · intro hx
        exact absurd hx.1 (by simp [haff])

theorem C8_witness :
    validate_and_extract svcW .blind_spot_warning "yes" initial_conversation
      = blind_spot_negative_first "yes" :=
  (C8_order svcW initial_conversation "yes").1 (by decide)
